import Mathlib

/-!
Shallow embedding of the reconcile modules of this repository:

* `lib/ansible/modules/cloud/azure/azure_rm_autoscale.py`
* `lib/ansible/modules/cloud/azure/azure_rm_servers.py`
* `lib/ansible/modules/cloud/azure/azure_rm_virtualnetworkrules_facts.py`
* `lib/ansible/plugins/lookup/azure_keyvault_secret.py`

Python dictionaries with a fixed key set are embedded as Lean structures; a
field that may be Python `None` (or a dictionary key that may be missing)
becomes an `Option`.  SDK calls are embedded through explicit transport
outcome values: each wrapper method takes the outcome the SDK call would
produce and returns `Except String _` (`Except.error` models `self.fail` as
well as an uncaught Python exception, both of which abort the module run).
`exec_module` additionally returns the list of write calls it issued to the
transport, so that the claims about which network writes happen are statable.
-/

namespace AnsibleAzure

/-- A write call issued to the resource transport by a reconcile run. -/
inductive Write where
  | delete
  | create
deriving DecidableEq, Repr

/-- Outcome of an SDK read call: a value, a `CloudError` carrying an HTTP
status code, or another (non-`CloudError`) exception. -/
inductive CloudOutcome (α : Type) where
  | found (r : α)
  | cloudError (status : Nat) (msg : String)
  | exn (msg : String)
deriving DecidableEq, Repr

/-- Outcome of an SDK delete call. -/
inductive DeleteOutcome where
  | ok
  | cloudError (status : Nat) (msg : String)
  | exn (msg : String)
deriving DecidableEq, Repr

/-! ## SDK model types (`azure.mgmt.monitor.models`)

The generated SDK model classes used by `azure_rm_autoscale.py`.  Optional
model attributes are `Option`s; required string enumerations are plain
`String`s as the module treats them. `threshold` is embedded as `Int`
(the module only moves it around, never computes with it). -/

structure MetricTrigger where
  metric_name : String
  metric_resource_uri : Option String
  time_grain : String
  statistic : String
  time_window : String
  time_aggregation : String
  operator : String
  threshold : Int
deriving DecidableEq, Repr

structure ScaleAction where
  direction : String
  type : String
  value : Option String
  cooldown : String
deriving DecidableEq, Repr

structure ScaleRule where
  metric_trigger : Option MetricTrigger
  scale_action : Option ScaleAction
deriving DecidableEq, Repr

structure ScaleCapacity where
  minimum : Option Int
  maximum : Option Int
  default : Option Int
deriving DecidableEq, Repr

/-- Model `TimeWindow`; the Python attribute `end` is `end_` here (`end` is a Lean
keyword). -/
structure TimeWindow where
  time_zone : Option String
  start : Option String
  end_ : Option String
deriving DecidableEq, Repr

structure RecurrentSchedule where
  time_zone : Option String
  days : Option (List Int)
  hours : Option (List Int)
  minutes : Option (List Int)
deriving DecidableEq, Repr

structure Recurrence where
  frequency : Option String
  schedule : Option RecurrentSchedule
deriving DecidableEq, Repr

structure AutoscaleProfile where
  name : String
  capacity : ScaleCapacity
  rules : List ScaleRule
  fixed_date : Option TimeWindow
  recurrence : Option Recurrence
deriving DecidableEq, Repr

structure EmailNotification where
  send_to_subscription_administrator : Option Bool
  send_to_subscription_co_administrators : Option Bool
  custom_emails : Option (List String)
deriving DecidableEq, Repr

structure WebhookNotification where
  service_url : Option String
  properties : Option (List (String × String))
deriving DecidableEq, Repr

structure AutoscaleNotification where
  email : Option EmailNotification
  webhooks : Option (List WebhookNotification)
deriving DecidableEq, Repr

structure AutoscaleSettingResource where
  id : Option String
  name : Option String
  location : Option String
  profiles : Option (List AutoscaleProfile)
  notifications : Option (List AutoscaleNotification)
  enabled : Option Bool
  autoscale_setting_resource_name : Option String
  target_resource_uri : Option String
  tags : Option (List (String × String))
deriving DecidableEq, Repr

/-! ## Normalisation (`auto_scale_to_dict` and friends)

The flat dictionaries these functions return are structures below.  The
`if not rule` / `if not profile` / `if not notification` guards in the
source are the Python-`None` checks; a model-class instance is always
truthy, so for list elements (which are model instances in this module) the
guard never fires and the functions are embedded over the structure itself.
`auto_scale_to_dict` keeps its `None` case because `exec_module` does pass
it `None`. -/

/-- Python `str(x)` applied to an optional string: `str(None)` is `"None"`. -/
def pyStrOpt (o : Option String) : String :=
  match o with
  | some s => s
  | none => "None"

/-- Python `str` applied to a list of ints, e.g. `str([1, 2]) = "[1, 2]"`. -/
def pyStrIntList (l : List Int) : String :=
  "[" ++ String.intercalate ", " (l.map toString) ++ "]"

/-- Python `str(x)` applied to an optional list of ints. -/
def pyStrOptIntList (o : Option (List Int)) : String :=
  match o with
  | some l => pyStrIntList l
  | none => "None"

/-- The dictionary built by `rule_to_dict` (azure_rm_autoscale.py lines
111-125), embedded exactly as written: the `direction`, `type`, `value` and
`cooldown` keys are all assigned from `rule.scale_action.direction`. -/
structure RuleDict where
  metric_name : String
  metric_resource_uri : Option String
  time_grain : String
  statistic : String
  time_window : String
  time_aggregation : String
  operator : String
  threshold : Int
  direction : String
  type : String
  value : Option String
  cooldown : String
deriving DecidableEq, Repr

/-- Embeds `rule_to_dict(rule, default_uri)` for a (non-`None`) `ScaleRule`. -/
def rule_to_dict (rule : ScaleRule) (default_uri : Option String) : RuleDict :=
  { metric_name := match rule.metric_trigger with
      | some mt => mt.metric_name
      | none => ""
    metric_resource_uri := match rule.metric_trigger with
      | some mt => mt.metric_resource_uri
      | none => default_uri
    time_grain := match rule.metric_trigger with
      | some mt => mt.time_grain
      | none => "PT1M"
    statistic := match rule.metric_trigger with
      | some mt => mt.statistic
      | none => "Average"
    time_window := match rule.metric_trigger with
      | some mt => mt.time_window
      | none => "PT10M"
    time_aggregation := match rule.metric_trigger with
      | some mt => mt.time_aggregation
      | none => "Average"
    operator := match rule.metric_trigger with
      | some mt => mt.operator
      | none => "GreaterThan"
    threshold := match rule.metric_trigger with
      | some mt => mt.threshold
      | none => 70
    direction := match rule.scale_action with
      | some sa => sa.direction
      | none => "None"
    type := match rule.scale_action with
      | some sa => sa.direction
      | none => "ChangeCount"
    value := match rule.scale_action with
      | some sa => some sa.direction
      | none => none
    cooldown := match rule.scale_action with
      | some sa => sa.direction
      | none => "PT5M" }

/-- The dictionary built by `profile_to_dict`. -/
structure ProfileDict where
  name : String
  count : Option Int
  max_count : Option Int
  min_count : Option Int
  rules : List RuleDict
  fixed_date_timezone : Option String
  fixed_date_start : Option String
  fixed_date_end : Option String
  recurrence_frequency : Option String
  recurrence_timezone : Option String
  recurrence_days : Option String
  recurrence_hours : Option String
  recurrence_mins : Option String
deriving DecidableEq, Repr

/-- Embeds `profile_to_dict(profile, default_uri)` (lines 128-143). -/
def profile_to_dict (profile : AutoscaleProfile) (default_uri : Option String) :
    ProfileDict :=
  { name := profile.name
    count := profile.capacity.default
    max_count := profile.capacity.maximum
    min_count := profile.capacity.minimum
    rules := profile.rules.map (fun r => rule_to_dict r default_uri)
    fixed_date_timezone := match profile.fixed_date with
      | some fd => fd.time_zone
      | none => none
    fixed_date_start := match profile.fixed_date with
      | some fd => fd.start
      | none => none
    fixed_date_end := match profile.fixed_date with
      | some fd => fd.end_
      | none => none
    recurrence_frequency := match profile.recurrence with
      | some rec => some (pyStrOpt rec.frequency)
      | none => none
    recurrence_timezone := match profile.recurrence with
      | some rec => match rec.schedule with
        | some s => some (pyStrOpt s.time_zone)
        | none => none
      | none => none
    recurrence_days := match profile.recurrence with
      | some rec => match rec.schedule with
        | some s => some (pyStrOptIntList s.days)
        | none => none
      | none => none
    recurrence_hours := match profile.recurrence with
      | some rec => match rec.schedule with
        | some s => some (pyStrOptIntList s.hours)
        | none => none
      | none => none
    recurrence_mins := match profile.recurrence with
      | some rec => match rec.schedule with
        | some s => some (pyStrOptIntList s.minutes)
        | none => none
      | none => none }

/-- The dictionary built by `notification_to_dict`. -/
structure NotificationDict where
  send_to_subscription_administrator : Option Bool
  send_to_subscription_co_administrators : Option Bool
  custom_emails : Option (List String)
  webhooks : Option (List WebhookNotification)
deriving DecidableEq, Repr

/-- Embeds `notification_to_dict(notification)` (lines 146-153).  The
`if notification.webhooks` guard is Python truthiness: both `None` and the
empty list collapse to `None`. -/
def notification_to_dict (notification : AutoscaleNotification) :
    NotificationDict :=
  { send_to_subscription_administrator := match notification.email with
      | some e => e.send_to_subscription_administrator
      | none => some false
    send_to_subscription_co_administrators := match notification.email with
      | some e => e.send_to_subscription_co_administrators
      | none => some false
    custom_emails := match notification.email with
      | some e => e.custom_emails
      | none => none
    webhooks := match notification.webhooks with
      | some ws =>
        if ws.isEmpty then none
        else some (ws.map (fun w =>
          { service_url := w.service_url, properties := w.properties }))
      | none => none }

/-- The dictionary built by `auto_scale_to_dict` for a non-`None` instance. -/
structure AutoScaleDict where
  id : Option String
  name : Option String
  location : Option String
  profiles : List ProfileDict
  notifications : List NotificationDict
  enabled : Option Bool
  target : Option String
  tags : Option (List (String × String))
deriving DecidableEq, Repr

/-- Embeds `auto_scale_to_dict(instance)` (lines 96-108); `none` is the
`if not instance: return dict()` branch.  The Python parameter is named
`instance`, a Lean keyword, hence `inst`. -/
def auto_scale_to_dict (inst : Option AutoscaleSettingResource) :
    Option AutoScaleDict :=
  match inst with
  | none => none
  | some i => some
    { id := i.id
      name := i.name
      location := i.location
      profiles := (i.profiles.getD []).map
        (fun p => profile_to_dict p i.target_resource_uri)
      notifications := (i.notifications.getD []).map notification_to_dict
      enabled := i.enabled
      target := i.target_resource_uri
      tags := i.tags }

/-! ## Desired state (the validated module arguments)

These mirror `rule_spec`, `profile_spec`, `webhook_spec`, `notification_spec`
and `module_arg_spec` of `azure_rm_autoscale.py`.  A field whose spec entry
has a default or is required is a plain value after validation; a field
without a default may be `None` and is an `Option`.  `none` for
`metric_resource_uri` also stands for the key being absent from the rule
dictionary (the only case in which `rule.get('metric_resource_uri', ...)`
falls back to its second argument). -/

structure DesiredRule where
  metric_name : String
  metric_resource_uri : Option String
  time_grain : String
  statistic : String
  time_window : String
  time_aggregation : String
  operator : String
  threshold : Int
  direction : String
  type : String
  value : Option String
  cooldown : String
deriving DecidableEq, Repr

structure DesiredProfile where
  name : String
  count : Int
  max_count : Option Int
  min_count : Option Int
  rules : List DesiredRule
  fixed_date_timezone : Option String
  fixed_date_start : Option String
  fixed_date_end : Option String
  recurrence_frequency : Option String
  recurrence_timezone : Option String
  recurrence_days : Option (List Int)
  recurrence_hours : Option (List Int)
  recurrence_mins : Option (List Int)
deriving DecidableEq, Repr

structure DesiredWebhook where
  service_url : Option String
  properties : Option (List (String × String))
deriving DecidableEq, Repr

structure DesiredNotification where
  send_to_subscription_administrator : Option Bool
  send_to_subscription_co_administrators : Option Bool
  custom_emails : Option (List String)
  webhooks : Option (List DesiredWebhook)
deriving DecidableEq, Repr

/-- The validated arguments of one `azure_rm_autoscale` run, plus the
Ansible check-mode flag.  `target` is the resolved resource uri string (the
`format_resource_id` branch for a dictionary-valued `target` is the caller
resolving the same uri). -/
structure AutoScaleArgs where
  resource_group : String
  name : String
  state : String
  location : Option String
  target : Option String
  profiles : Option (List DesiredProfile)
  enabled : Option Bool
  notifications : Option (List DesiredNotification)
  tags : Option (List (String × String))
  check_mode : Bool
deriving DecidableEq, Repr

/-! ## The `metric_resource_uri` defaulting pre-pass

`exec_module` lines 266-268: before building anything, every rule dictionary
nested in `self.profiles` is updated in place with
`rule['metric_resource_uri'] = rule.get('metric_resource_uri', self.target)`.
The functions below compute the profiles value after that loop ran. -/

def default_rule_uri (target : Option String) (r : DesiredRule) : DesiredRule :=
  { r with metric_resource_uri := match r.metric_resource_uri with
      | some v => some v
      | none => target }

def default_profile_uri (target : Option String) (p : DesiredProfile) :
    DesiredProfile :=
  { p with rules := p.rules.map (default_rule_uri target) }

def default_profiles_uri (target : Option String) (ps : List DesiredProfile) :
    List DesiredProfile :=
  ps.map (default_profile_uri target)

/-! ## Payload construction (`exec_module` lines 300-325) -/

/-- Embeds `ScaleRule(metric_trigger=MetricTrigger(**r), scale_action=ScaleAction(**r))`:
each constructor picks its own keys out of the rule dictionary. -/
def buildRule (r : DesiredRule) : ScaleRule :=
  { metric_trigger := some
      { metric_name := r.metric_name
        metric_resource_uri := r.metric_resource_uri
        time_grain := r.time_grain
        statistic := r.statistic
        time_window := r.time_window
        time_aggregation := r.time_aggregation
        operator := r.operator
        threshold := r.threshold }
    scale_action := some
      { direction := r.direction
        type := r.type
        value := r.value
        cooldown := r.cooldown } }

/-- The `AutoscaleProfile(...)` comprehension (lines 300-314).  The
`if p.get('fixed_date_timezone')` and `if p.get('recurrence_frequency')`
guards are Python truthiness on an optional string; `none` is the falsy
case. -/
def buildProfile (p : DesiredProfile) : AutoscaleProfile :=
  { name := p.name
    capacity := { minimum := p.min_count, maximum := p.max_count,
                  default := some p.count }
    rules := p.rules.map buildRule
    fixed_date := match p.fixed_date_timezone with
      | some tz => some { time_zone := some tz, start := p.fixed_date_start,
                          end_ := p.fixed_date_end }
      | none => none
    recurrence := match p.recurrence_frequency with
      | some freq => some
        { frequency := some freq
          schedule := some { time_zone := p.recurrence_timezone
                             days := p.recurrence_days
                             hours := p.recurrence_hours
                             minutes := p.recurrence_mins } }
      | none => none }

/-- The `AutoscaleNotification(...)` comprehension (lines 316-317).
`[WebhookNotification(**w) for w in n.get('webhooks')]` iterates
`n['webhooks']` without a `None` guard: when the key holds `None` the run
dies with an uncaught `TypeError`, embedded as `Except.error`. -/
def buildNotification (n : DesiredNotification) :
    Except String AutoscaleNotification :=
  match n.webhooks with
  | none => .error "TypeError: NoneType object is not iterable"
  | some ws => .ok
    { email := some
        { send_to_subscription_administrator :=
            n.send_to_subscription_administrator
          send_to_subscription_co_administrators :=
            n.send_to_subscription_co_administrators
          custom_emails := n.custom_emails }
      webhooks := some (ws.map (fun w =>
        { service_url := w.service_url, properties := w.properties })) }

def buildNotifications (ns : List DesiredNotification) :
    Except String (List AutoscaleNotification) :=
  ns.mapM buildNotification

/-! ## `update_tags`

Modelled from the spec: `update_tags` lives in
`ansible.module_utils.azure_rm_common`, which is not part of this
repository snapshot.  The spec describes the diff as comparing "a fixed set
of provider-managed fields (tags, target reference, enabled flag)": the
helper merges the desired tags into the remote tags and reports whether
that changes anything (append semantics — a desired key that is missing
from, or differs in, the remote tags is an update; remote-only keys are
kept). -/

def lookupTag (tags : List (String × String)) (k : String) : Option String :=
  (tags.find? (fun kv => kv.1 = k)).map (fun kv => kv.2)

def mergeTag (tags : List (String × String)) (kv : String × String) :
    List (String × String) :=
  if (tags.find? (fun e => e.1 = kv.1)).isSome then
    tags.map (fun e => if e.1 = kv.1 then (e.1, kv.2) else e)
  else tags ++ [kv]

def update_tags (desired remote : List (String × String)) :
    Bool × List (String × String) :=
  (desired.any (fun kv => lookupTag remote kv.1 ≠ some kv.2),
   desired.foldl mergeTag remote)

/-! ## Transport and SDK-call wrappers for `azure_rm_autoscale` -/

/-- The predetermined outcomes of the SDK calls one run may issue. -/
structure AutoScaleTransport where
  /-- Value of `get_resource_group(...).location`, read when no location was given. -/
  rgLocation : String
  getOutcome : CloudOutcome AutoscaleSettingResource
  deleteOutcome : DeleteOutcome
  createOutcome : Except String AutoscaleSettingResource
deriving Repr

/-- Embeds `get_auto_scale` (lines 333-343): `None` exactly on a 404 `CloudError`;
any other `CloudError` and any other exception calls `self.fail`. -/
def get_auto_scale (o : CloudOutcome AutoscaleSettingResource) :
    Except String (Option AutoscaleSettingResource) :=
  match o with
  | .found r => .ok (some r)
  | .cloudError status msg =>
    if status = 404 then .ok none
    else .error ("Error: failed to get auto scale settings - " ++ msg)
  | .exn msg => .error ("Error: failed to get auto scale settings - " ++ msg)

/-- Embeds `delete_auto_scale` (lines 351-356): every exception — a `CloudError`
of any status, 404 included, or anything else — calls `self.fail`. -/
def delete_auto_scale (o : DeleteOutcome) : Except String Unit :=
  match o with
  | .ok => .ok ()
  | .cloudError _ msg => .error ("Error deleting auto scale settings - " ++ msg)
  | .exn msg => .error ("Error deleting auto scale settings - " ++ msg)

/-- Embeds `create_or_update_auto_scale` (lines 345-349). -/
def create_or_update_auto_scale (o : Except String AutoscaleSettingResource) :
    Except String AutoscaleSettingResource :=
  match o with
  | .ok r => .ok r
  | .error msg => .error ("Error creating auto scale settings - " ++ msg)

/-- Value of `self.results` of one `azure_rm_autoscale` run: the flattened instance
dictionary (empty = `none`) plus the `changed` key. -/
structure AutoScaleResult where
  result : Option AutoScaleDict
  changed : Bool
deriving DecidableEq, Repr

/-- The drift check of `exec_module` lines 282-297 for an existing remote
resource: `changed` becomes true when the merged tags differ, the target
uri differs, or the enabled flag differs.  The profile-set and
notification-set comparisons of lines 292-297 are commented out in the
source and therefore absent here. -/
def autoScaleChanged (args : AutoScaleArgs) (target : Option String)
    (r : AutoscaleSettingResource) : Bool :=
  (update_tags (args.tags.getD []) (r.tags.getD [])).1
    || decide (target ≠ r.target_resource_uri)
    || decide (args.enabled ≠ r.enabled)

/-- The `if changed:` tail of `exec_module` (lines 298-331): build the
`AutoscaleSettingResource` payload from the (already defaulted) desired
profiles and notifications and, unless check mode, send it to
`create_or_update`; the flattened instance (payload itself in check mode,
else the create response) is returned with `changed` (true on this path). -/
def autoScaleCreatePath (t : AutoScaleTransport) (check_mode : Bool)
    (location : String) (tagsUsed : Option (List (String × String)))
    (profiles : List DesiredProfile)
    (notifs : Option (List DesiredNotification)) (enabled : Option Bool)
    (resource_name : String) (target : Option String) :
    Except String AutoScaleResult × List Write :=
  match buildNotifications (notifs.getD []) with
  | .error m => (.error m, [])
  | .ok ns =>
    let payload : AutoscaleSettingResource :=
      { id := none
        name := none
        location := some location
        profiles := some (profiles.map buildProfile)
        notifications := some ns
        enabled := enabled
        autoscale_setting_resource_name := some resource_name
        target_resource_uri := target
        tags := tagsUsed }
    if check_mode then
      (.ok { result := auto_scale_to_dict (some payload), changed := true }, [])
    else
      match create_or_update_auto_scale t.createOutcome with
      | .error m => (.error m, [Write.create])
      | .ok res =>
        (.ok { result := auto_scale_to_dict (some res), changed := true },
         [Write.create])

/-- Embeds `AzureRMAutoScale.exec_module` (lines 241-331).  The returned list is
the sequence of write calls issued to the transport.  Step by step:
location defaults to the resource group location; the defaulting pre-pass
rewrites `metric_resource_uri` inside the desired profiles; fetch; then the
absent/present branching of lines 272-331, with `changed` computed exactly
as in the source (`update_tags`, target uri, enabled — the profile and
notification comparisons are commented out in the source and so absent
here). -/
def autoScaleExec (args : AutoScaleArgs) (t : AutoScaleTransport) :
    Except String AutoScaleResult × List Write :=
  let location := args.location.getD t.rgLocation
  let target := args.target
  let profiles := default_profiles_uri target (args.profiles.getD [])
  match get_auto_scale t.getOutcome with
  | .error m => (.error m, [])
  | .ok results =>
    match results with
    | some r =>
      if args.state = "absent" then
        if args.check_mode then
          (.ok { result := auto_scale_to_dict (some r), changed := true }, [])
        else
          match delete_auto_scale t.deleteOutcome with
          | .error m => (.error m, [Write.delete])
          | .ok _ =>
            (.ok { result := auto_scale_to_dict (some r), changed := true },
             [Write.delete])
      else if args.state = "present" then
        let resource_name := match r.autoscale_setting_resource_name with
          | some s => if s = "" then args.name else s
          | none => args.name
        let tu := update_tags (args.tags.getD []) (r.tags.getD [])
        let changed := autoScaleChanged args target r
        let tagsUsed := if tu.1 then some tu.2 else args.tags
        if changed then
          autoScaleCreatePath t args.check_mode location tagsUsed profiles
            args.notifications args.enabled resource_name target
        else
          (.ok { result := auto_scale_to_dict (some r), changed := false }, [])
      else
        (.ok { result := auto_scale_to_dict (some r), changed := false }, [])
    | none =>
      if args.state = "present" then
        autoScaleCreatePath t args.check_mode location args.tags profiles
          args.notifications args.enabled args.name target
      else
        (.ok { result := none, changed := false }, [])

/-! ## `azure_rm_servers.py`

`response.as_dict()` dictionaries are opaque to the module (they are only
stored and returned), embedded as association lists. -/

/-- A deserialised `as_dict()` response. -/
abbrev ServerDict : Type := List (String × String)

/-- Embeds `self.parameters`: the argument keys without a matching instance
attribute, shipped as one dictionary to `create_or_update` (lines 159-163,
225-227). -/
structure ServerParams where
  location : String
  tags : Option (List (String × String))
  identity : Option (List (String × String))
  administrator_login : Option String
  administrator_login_password : Option String
  version : Option String
deriving DecidableEq, Repr

/-- The validated arguments of one `azure_rm_servers` run. -/
structure ServersArgs where
  resource_group_name : String
  server_name : String
  state : String
  parameters : ServerParams
  check_mode : Bool
deriving DecidableEq, Repr

structure ServersTransport where
  /-- whether `get_resource_group` succeeds (lines 172-175). -/
  rgExists : Bool
  getOutcome : CloudOutcome ServerDict
  deleteOutcome : DeleteOutcome
  createOutcome : Except String ServerDict

/-- Embeds `get_servers` (lines 252-271): it catches every `CloudError` — with any
status code — and returns `False` ("absent"); a non-`CloudError` exception
is not caught and propagates, aborting the run. -/
def get_servers (o : CloudOutcome ServerDict) :
    Except String (Option ServerDict) :=
  match o with
  | .found d => .ok (some d)
  | .cloudError _ _ => .ok none
  | .exn m => .error m

/-- Embeds `delete_servers` (lines 236-250): a `CloudError` calls `self.fail`; a
non-`CloudError` exception propagates.  Either way the run aborts. -/
def delete_servers (o : DeleteOutcome) : Except String Unit :=
  match o with
  | .ok => .ok ()
  | .cloudError _ m => .error ("Error deleting the Servers instance - " ++ m)
  | .exn m => .error m

/-- Embeds `create_update_servers` (lines 216-234). -/
def create_update_servers (o : Except String ServerDict) :
    Except String ServerDict :=
  match o with
  | .ok d => .ok d
  | .error m => .error ("Error creating the Servers instance - " ++ m)

/-- Value of `self.results` of one `azure_rm_servers` run; `state := none` is the
initial empty dictionary. -/
structure ServersResult where
  changed : Bool
  state : Option ServerDict
deriving DecidableEq

/-- Embeds `AzureRMServers.exec_module` (lines 156-214), with the write-call trace.
Note two peculiarities of the source, kept as written: on the
existing-resource `state=absent` path (line 188) `delete_servers()` is NOT
guarded by `check_mode`; and on the existing-resource `state=present` path
`to_be_updated` is set to `True` unconditionally (lines 193-197), so the
module always deletes and recreates without comparing anything. -/
def serversExec (args : ServersArgs) (t : ServersTransport) :
    Except String ServersResult × List Write :=
  if ¬ t.rgExists then
    (.error ("resource group " ++ args.resource_group_name ++ " not found"),
     [])
  else
    match get_servers t.getOutcome with
    | .error m => (.error m, [])
    | .ok response =>
      match response with
      | some _ =>
        if args.state = "absent" then
          match delete_servers t.deleteOutcome with
          | .error m => (.error m, [Write.delete])
          | .ok _ => (.ok { changed := true, state := none }, [Write.delete])
        else if args.state = "present" then
          if args.check_mode then (.ok { changed := false, state := none }, [])
          else
            match delete_servers t.deleteOutcome with
            | .error m => (.error m, [Write.delete])
            | .ok _ =>
              match create_update_servers t.createOutcome with
              | .error m => (.error m, [Write.delete, Write.create])
              | .ok d =>
                (.ok { changed := true, state := some d },
                 [Write.delete, Write.create])
        else (.ok { changed := false, state := none }, [])
      | none =>
        if args.state = "absent" then
          (.ok { changed := false, state := none }, [])
        else if args.state = "present" then
          if args.check_mode then (.ok { changed := false, state := none }, [])
          else
            match create_update_servers t.createOutcome with
            | .error m => (.error m, [Write.create])
            | .ok d => (.ok { changed := true, state := some d }, [Write.create])
        else (.ok { changed := false, state := none }, [])

/-! ## `azure_rm_virtualnetworkrules_facts.py` -/

/-- Embeds `AzureRMVirtualNetworkRulesFacts.get` (lines 109-129): identical shape
to `get_servers` — every `CloudError` becomes `False` ("absent"), a
non-`CloudError` exception propagates. -/
def virtual_network_rules_get (o : CloudOutcome ServerDict) :
    Except String (Option ServerDict) :=
  match o with
  | .found d => .ok (some d)
  | .cloudError _ _ => .ok none
  | .exn m => .error m

/-! ## `azure_keyvault_secret.py` (lookup plugin) -/

/-- Outcome of one MSI-endpoint secret fetch (`requests.get` + `.json()`):
a value, a `requests` exception (the only class the loop catches), or a
JSON body without a `"value"` key — the resulting `KeyError` is uncaught. -/
inductive MsiFetch where
  | value (v : String)
  | requestExn (m : String)
  | badJson (m : String)
deriving DecidableEq, Repr

/-- Outcome of one `client.get_secret` call in the service-principal path. -/
inductive SpFetch where
  | value (v : String)
  | clientRequestErr (m : String)
  | keyVaultErr (m : String)
deriving DecidableEq, Repr

structure KeyVaultTransport where
  /-- the import-time `TOKEN_ACQUIRED` global. -/
  tokenAcquired : Bool
  msiFetch : String → MsiFetch
  /-- whether `ServicePrincipalCredentials(...)` succeeds (else
  `AuthenticationError`). -/
  credsOk : Bool
  spFetch : String → SpFetch

/-- The `for term in terms[0]` loop of the MSI path (lines 69-82): a value
is appended; on a `RequestException` the empty string is appended; a
missing `"value"` key raises an uncaught `KeyError`, aborting the whole
lookup. -/
def msiFetchAll (f : String → MsiFetch) : List String →
    Except String (List String)
  | [] => .ok []
  | term :: rest =>
    match f term with
    | .value v => (msiFetchAll f rest).map (fun l => v :: l)
    | .requestExn _ => (msiFetchAll f rest).map (fun l => "" :: l)
    | .badJson m => .error m

/-- The `for term in terms[0]` loop of the service-principal path (lines
106-117): a value is appended; a `KeyVaultErrorException` appends the empty
string; a `ClientRequestError` raises `AnsibleError`, aborting the whole
lookup. -/
def spFetchAll (f : String → SpFetch) : List String →
    Except String (List String)
  | [] => .ok []
  | term :: rest =>
    match f term with
    | .value v => (spFetchAll f rest).map (fun l => v :: l)
    | .keyVaultErr _ => (spFetchAll f rest).map (fun l => "" :: l)
    | .clientRequestErr _ => .error "Error occurred in request"

/-- Embeds `LookupModule.run` (lines 61-117).  The plugin iterates `terms[0]` (the
first batch of requested names); an empty `terms` raises `IndexError`.  The
MSI path is taken when the import-time token acquisition succeeded;
otherwise service-principal credentials are built (aborting on
`AuthenticationError`) and the SP loop runs. -/
def lookup_run (t : KeyVaultTransport) (terms : List (List String)) :
    Except String (List String) :=
  match terms with
  | [] => .error "IndexError: list index out of range"
  | terms0 :: _ =>
    if t.tokenAcquired then msiFetchAll t.msiFetch terms0
    else if t.credsOk then spFetchAll t.spFetch terms0
    else .error "Invalid credentials provided."

/-- Whether an MSI fetch outcome is the uncaught-`KeyError` case. -/
def MsiFetch.isBadJson : MsiFetch → Bool
  | .badJson _ => true
  | _ => false

/-- Whether an SP fetch outcome is a request-level `ClientRequestError`. -/
def SpFetch.isClientRequestErr : SpFetch → Bool
  | .clientRequestErr _ => true
  | _ => false

/-! ## Concrete example values (used by witnesses and counterexamples) -/

def exRule : DesiredRule :=
  { metric_name := "Percentage CPU"
    metric_resource_uri := none
    time_grain := "PT1M"
    statistic := "Average"
    time_window := "PT10M"
    time_aggregation := "Average"
    operator := "GreaterThan"
    threshold := 70
    direction := "Increase"
    type := "ChangeCount"
    value := some "1"
    cooldown := "PT5M" }

def exProfile : DesiredProfile :=
  { name := "p1"
    count := 2
    max_count := some 4
    min_count := some 1
    rules := [exRule]
    fixed_date_timezone := none
    fixed_date_start := none
    fixed_date_end := none
    recurrence_frequency := none
    recurrence_timezone := none
    recurrence_days := none
    recurrence_hours := none
    recurrence_mins := none }

def exArgsPresent : AutoScaleArgs :=
  { resource_group := "Testing"
    name := "foobar"
    state := "present"
    location := some "eastus"
    target := some "vm001"
    profiles := some [exProfile]
    enabled := some true
    notifications := some []
    tags := none
    check_mode := false }

def exArgsAbsent : AutoScaleArgs :=
  { exArgsPresent with state := "absent", profiles := none, target := none }

/-- A remote autoscale setting that agrees with `exArgsPresent` on every
field `exec_module` compares (tags, target uri, enabled flag). -/
def exRemote : AutoscaleSettingResource :=
  { id := some "subscriptions/xxx/autoscalesettings/foobar"
    name := some "foobar"
    location := some "eastus"
    profiles := some
      [buildProfile (default_profile_uri (some "vm001") exProfile)]
    notifications := some []
    enabled := some true
    autoscale_setting_resource_name := some "foobar"
    target_resource_uri := some "vm001"
    tags := none }

def exTransportFound : AutoScaleTransport :=
  { rgLocation := "eastus"
    getOutcome := .found exRemote
    deleteOutcome := .ok
    createOutcome := .ok exRemote }

def exServerParams : ServerParams :=
  { location := "eastus"
    tags := none
    identity := none
    administrator_login := some "admin"
    administrator_login_password := some "pw"
    version := some "12.0" }

def exServersArgsAbsentCheck : ServersArgs :=
  { resource_group_name := "rg"
    server_name := "srv"
    state := "absent"
    parameters := exServerParams
    check_mode := true }

def exServersArgsPresent : ServersArgs :=
  { exServersArgsAbsentCheck with state := "present", check_mode := false }

def exServersArgsAbsent : ServersArgs :=
  { exServersArgsAbsentCheck with check_mode := false }

def exServerDict : ServerDict :=
  [("name", "srv"), ("location", "eastus"), ("version", "12.0")]

def exServersTransportFound : ServersTransport :=
  { rgExists := true
    getOutcome := .found exServerDict
    deleteOutcome := .ok
    createOutcome := .ok exServerDict }

/-- A `ScaleRule` whose scale action has four pairwise different field
values, so that the copy-paste in `rule_to_dict` is observable. -/
def exScaleRule : ScaleRule :=
  { metric_trigger := some
      { metric_name := "Percentage CPU"
        metric_resource_uri := some "vm001"
        time_grain := "PT1M"
        statistic := "Average"
        time_window := "PT10M"
        time_aggregation := "Average"
        operator := "GreaterThan"
        threshold := 70 }
    scale_action := some
      { direction := "Increase"
        type := "ChangeCount"
        value := some "1"
        cooldown := "PT5M" } }

/-- Variant of `exRemote` with the same tags, target uri and enabled flag but entirely
different profile content. -/
def exRemoteOtherProfiles : AutoscaleSettingResource :=
  { exRemote with profiles := some [] }

/-! ## Claim theorems -/

/-- C1: in `azure_rm_servers.exec_module`, a check-mode run with
`state=absent` against an existing resource still issues the delete write
call (line 188 is not guarded by `check_mode`), evaluated here at the
failing input. -/
theorem serversExec_check_mode_absent_issues_delete :
    serversExec exServersArgsAbsentCheck exServersTransportFound =
      (.ok { changed := true, state := none }, [Write.delete]) := by
  rfl

/-- C2 counterexample: in `azure_rm_servers.exec_module`, even when the
fetched remote resource is exactly the dictionary the create call would
produce (no drift whatsoever), a `state=present` run issues a delete
followed by a create and reports `changed=true` — not zero write calls as
the claim states. -/
theorem serversExec_recreates_identical_resource :
    serversExec exServersArgsPresent exServersTransportFound =
      (.ok { changed := true, state := some exServerDict },
       [Write.delete, Write.create]) := by
  rfl

/-- C3 counterexample: `get_servers` maps a non-404 `CloudError` (here a
403 authorization failure) to the "absent" outcome instead of aborting —
not-found and permission failures are collapsed. -/
theorem get_servers_collapses_forbidden_into_absent :
    get_servers (CloudOutcome.cloudError 403 "AuthorizationFailed") =
      .ok none := by
  rfl

/-- C4 counterexample: a remote resource whose profile list content differs
from the desired profiles (remote has none at all) but which agrees on
tags, target and enabled yields `changed=false` and no write — a content
difference in profiles does not yield `changed=true`. -/
theorem autoScaleExec_ignores_profile_content :
    autoScaleExec exArgsPresent
      { exTransportFound with getOutcome := .found exRemoteOtherProfiles } =
      (.ok { result := auto_scale_to_dict (some exRemoteOtherProfiles),
             changed := false }, []) := by
  rfl

/-- C4 (amended): the drift check of `exec_module` reads only the tags, the
target uri and the enabled flag of the remote resource; replacing its
profiles and notifications by anything at all — reordered or different in
content — never changes the diff outcome. -/
theorem autoScaleChanged_ignores_profiles_notifications
    (args : AutoScaleArgs) (target : Option String)
    (r : AutoscaleSettingResource)
    (dps : Option (List DesiredProfile))
    (dns : Option (List DesiredNotification))
    (ps : Option (List AutoscaleProfile))
    (ns : Option (List AutoscaleNotification)) :
    autoScaleChanged { args with profiles := dps, notifications := dns }
      target { r with profiles := ps, notifications := ns } =
      autoScaleChanged args target r := by
  rfl

/-- C5: `rule_to_dict` assigns `rule.scale_action.direction` to the `type`,
`value` and `cooldown` keys (azure_rm_autoscale.py lines 123-125), so
normalising a rule whose scale action is `direction="Increase"`,
`type="ChangeCount"`, `value="1"`, `cooldown="PT5M"` loses all three
fields: the round trip does not preserve them. -/
theorem rule_to_dict_copies_direction_into_type_value_cooldown :
    (rule_to_dict exScaleRule (some "vm001")).type = "Increase" ∧
    (rule_to_dict exScaleRule (some "vm001")).value = some "Increase" ∧
    (rule_to_dict exScaleRule (some "vm001")).cooldown = "Increase" := by
  exact ⟨rfl, rfl, rfl⟩

/-- C7 counterexample: a 404 ("not found") `CloudError` reported by the
transport during the delete call makes `azure_rm_autoscale.exec_module`
abort with a failure — it is not tolerated as already-satisfied state. -/
theorem autoScaleExec_delete_not_found_fails :
    autoScaleExec exArgsAbsent
      { exTransportFound with
          deleteOutcome := .cloudError 404 "ResourceNotFound" } =
      (.error "Error deleting auto scale settings - ResourceNotFound",
       [Write.delete]) := by
  rfl

/-- C9 counterexample: the `metric_resource_uri` defaulting loop of
`exec_module` (lines 266-268) rewrites the rule dictionaries nested inside
the desired profiles: on a profile whose rule omits `metric_resource_uri`
the desired state comes back changed, i.e. it is mutated in place. -/
theorem default_profiles_uri_mutates_desired :
    default_profiles_uri (some "vm001") [exProfile] ≠ [exProfile] := by
  decide

/-- C8: in both reconcile modules, when the fetch reports not-found (a 404
`CloudError`) and the desired state is `absent`, the run returns
`changed=false` and issues no write call at all. -/
theorem absent_not_found_reports_unchanged
    (a1 : AutoScaleArgs) (t1 : AutoScaleTransport) (m1 : String)
    (a2 : ServersArgs) (t2 : ServersTransport) (m2 : String)
    (h1 : a1.state = "absent") (h2 : t1.getOutcome = .cloudError 404 m1)
    (h3 : a2.state = "absent") (h4 : t2.rgExists = true)
    (h5 : t2.getOutcome = .cloudError 404 m2) :
    autoScaleExec a1 t1 = (.ok { result := none, changed := false }, []) ∧
    serversExec a2 t2 = (.ok { changed := false, state := none }, []) := by
  constructor
  · simp [autoScaleExec, get_auto_scale, h1, h2]
  · simp [serversExec, get_servers, h3, h4, h5]

/-- C8 witness: the no-op absent reconcile at a concrete input. -/
theorem absent_not_found_reports_unchanged_witness :
    autoScaleExec exArgsAbsent
      { exTransportFound with getOutcome := .cloudError 404 "nf" } =
      (.ok { result := none, changed := false }, []) ∧
    serversExec exServersArgsAbsent
      { exServersTransportFound with getOutcome := .cloudError 404 "nf" } =
      (.ok { changed := false, state := none }, []) := by
  exact absent_not_found_reports_unchanged exArgsAbsent
    { exTransportFound with getOutcome := .cloudError 404 "nf" } "nf"
    exServersArgsAbsent
    { exServersTransportFound with getOutcome := .cloudError 404 "nf" } "nf"
    rfl rfl rfl rfl rfl

/-- C2 (amended): in the autoscale module, when the existing remote
resource agrees with the desired state on every field the drift check
reads — the merged tags need no update, the target uri and the enabled
flag are equal, as is in particular the case when the remote equals the
payload built from the desired state — `exec_module` reports
`changed=false` and issues no write call; the servers module performs no
comparison at all and, for `state=present` against an existing resource,
always issues a delete followed by a create. -/
theorem no_drift_no_write_autoscale_but_servers_recreates
    (a1 : AutoScaleArgs) (t1 : AutoScaleTransport)
    (r : AutoscaleSettingResource)
    (a2 : ServersArgs) (t2 : ServersTransport) (d d' : ServerDict)
    (h1 : a1.state = "present") (h2 : t1.getOutcome = .found r)
    (h3 : (update_tags (a1.tags.getD []) (r.tags.getD [])).1 = false)
    (h4 : a1.target = r.target_resource_uri) (h5 : a1.enabled = r.enabled)
    (h6 : a2.state = "present") (h7 : a2.check_mode = false)
    (h8 : t2.rgExists = true) (h9 : t2.getOutcome = .found d)
    (h10 : t2.deleteOutcome = .ok) (h11 : t2.createOutcome = .ok d') :
    autoScaleExec a1 t1 =
      (.ok { result := auto_scale_to_dict (some r), changed := false }, []) ∧
    serversExec a2 t2 =
      (.ok { changed := true, state := some d' },
       [Write.delete, Write.create]) := by
  constructor
  · simp [autoScaleExec, get_auto_scale, autoScaleChanged, h1, h2, h3, h4, h5]
  · simp [serversExec, get_servers, delete_servers, create_update_servers,
      h6, h7, h8, h9, h10, h11]

/-- C2 witness: a drift-free autoscale reconcile and a servers reconcile
against an identical remote, at concrete inputs. -/
theorem no_drift_no_write_witness :
    autoScaleExec exArgsPresent exTransportFound =
      (.ok { result := auto_scale_to_dict (some exRemote),
             changed := false }, []) ∧
    serversExec exServersArgsPresent exServersTransportFound =
      (.ok { changed := true, state := some exServerDict },
       [Write.delete, Write.create]) := by
  exact no_drift_no_write_autoscale_but_servers_recreates
    exArgsPresent exTransportFound exRemote
    exServersArgsPresent exServersTransportFound exServerDict exServerDict
    rfl rfl rfl rfl rfl rfl rfl rfl rfl rfl rfl

/-- C3 (amended): the autoscale fetch distinguishes the outcomes exactly as
the claim states — a found resource, absent on a 404 `CloudError`, and a
fatal error on every other `CloudError` and on every non-`CloudError`
exception — while the servers and virtual-network-rules fetches return
absent on every `CloudError` regardless of status, collapsing not-found
with permission and transport failures. -/
theorem fetch_current_not_found_classification :
    (∀ r, get_auto_scale (.found r) = .ok (some r)) ∧
    (∀ m, get_auto_scale (.cloudError 404 m) = .ok none) ∧
    (∀ s m, s ≠ 404 → get_auto_scale (.cloudError s m) =
      .error ("Error: failed to get auto scale settings - " ++ m)) ∧
    (∀ m, get_auto_scale (.exn m) =
      .error ("Error: failed to get auto scale settings - " ++ m)) ∧
    (∀ s m, get_servers (.cloudError s m) = .ok none) ∧
    (∀ s m, virtual_network_rules_get (.cloudError s m) = .ok none) := by
  refine ⟨fun r => rfl, fun m => by simp [get_auto_scale],
    fun s m hs => by simp [get_auto_scale, hs],
    fun m => rfl, fun s m => rfl, fun s m => rfl⟩

/-- C3 witness: the classification applied at status 403. -/
theorem fetch_current_classification_witness :
    get_auto_scale (.cloudError 403 "AuthorizationFailed") =
      .error ("Error: failed to get auto scale settings - " ++
        "AuthorizationFailed") := by
  exact fetch_current_not_found_classification.2.2.1 403
    "AuthorizationFailed" (by decide)

/-- C7 (amended): a not-found reported by the transport during the delete
call is NOT tolerated: in both modules any exception raised by the delete
call — a 404 `CloudError` included — aborts the run as a failure. -/
theorem delete_not_found_aborts
    (a1 : AutoScaleArgs) (t1 : AutoScaleTransport)
    (r : AutoscaleSettingResource) (m1 : String)
    (a2 : ServersArgs) (t2 : ServersTransport) (d : ServerDict) (m2 : String)
    (h1 : a1.state = "absent") (h1c : a1.check_mode = false)
    (h2 : t1.getOutcome = .found r)
    (h3 : t1.deleteOutcome = .cloudError 404 m1)
    (h4 : a2.state = "absent") (h5 : t2.rgExists = true)
    (h6 : t2.getOutcome = .found d)
    (h7 : t2.deleteOutcome = .cloudError 404 m2) :
    autoScaleExec a1 t1 =
      (.error ("Error deleting auto scale settings - " ++ m1),
       [Write.delete]) ∧
    serversExec a2 t2 =
      (.error ("Error deleting the Servers instance - " ++ m2),
       [Write.delete]) := by
  constructor
  · simp [autoScaleExec, get_auto_scale, delete_auto_scale, h1, h1c, h2, h3]
  · simp [serversExec, get_servers, delete_servers, h4, h5, h6, h7]

/-- C7 witness: the aborting delete at concrete inputs. -/
theorem delete_not_found_aborts_witness :
    autoScaleExec exArgsAbsent
      { exTransportFound with deleteOutcome := .cloudError 404 "nf" } =
      (.error ("Error deleting auto scale settings - " ++ "nf"),
       [Write.delete]) ∧
    serversExec exServersArgsAbsent
      { exServersTransportFound with deleteOutcome := .cloudError 404 "nf" } =
      (.error ("Error deleting the Servers instance - " ++ "nf"),
       [Write.delete]) := by
  exact delete_not_found_aborts exArgsAbsent
    { exTransportFound with deleteOutcome := .cloudError 404 "nf" }
    exRemote "nf" exServersArgsAbsent
    { exServersTransportFound with deleteOutcome := .cloudError 404 "nf" }
    exServerDict "nf" rfl rfl rfl rfl rfl rfl rfl rfl

/-- Mapping a function that fixes every member of a list is the identity. -/
theorem list_map_id_of_mem {α : Type} (f : α → α) (l : List α)
    (h : ∀ a ∈ l, f a = a) : l.map f = l := by
  induction l with
  | nil => rfl
  | cons a l ih =>
    simp only [List.map_cons, List.cons.injEq]
    exact ⟨h a (by simp), ih (fun b hb => h b (by simp [hb]))⟩

/-- The defaulting step leaves a rule alone when its
`metric_resource_uri` key is already present. -/
theorem default_rule_uri_id (target : Option String) (r : DesiredRule)
    (h : r.metric_resource_uri.isSome) : default_rule_uri target r = r := by
  rcases r with ⟨mn, mru, tg, st, tw, ta, op, th, dir, ty, va, cd⟩
  rcases mru with _ | v
  · simp at h
  · rfl

/-- C9 (amended): payload construction itself is a pure function of the
desired state, but the `metric_resource_uri` defaulting that precedes it
writes into the rule dictionaries nested in the desired profiles; the
desired state is left unmodified precisely on inputs where every rule
already carries the `metric_resource_uri` key, as proved here. -/
theorem default_profiles_uri_id_of_all_present (target : Option String)
    (ps : List DesiredProfile)
    (h : ∀ p ∈ ps, ∀ r ∈ p.rules, r.metric_resource_uri.isSome) :
    default_profiles_uri target ps = ps := by
  unfold default_profiles_uri
  refine list_map_id_of_mem _ _ (fun p hp => ?_)
  unfold default_profile_uri
  have hr : p.rules.map (default_rule_uri target) = p.rules :=
    list_map_id_of_mem _ _ (fun r hrr => default_rule_uri_id target r (h p hp r hrr))
  rw [hr]

/-- C9 witness: the defaulting pass at a concrete desired state whose rule
carries the key. -/
theorem default_profiles_uri_id_witness :
    default_profiles_uri (some "vm001")
      [{ exProfile with
           rules := [{ exRule with metric_resource_uri := some "vm002" }] }] =
      [{ exProfile with
           rules := [{ exRule with metric_resource_uri := some "vm002" }] }] := by
  exact default_profiles_uri_id_of_all_present (some "vm001") _ (by decide)

/-- The value the MSI loop appends for one term: the fetched secret, or the
empty string on the caught `RequestException`. -/
def msiValue (f : String → MsiFetch) (s : String) : String :=
  match f s with
  | .value v => v
  | _ => ""

/-- The value the service-principal loop appends for one term. -/
def spValue (f : String → SpFetch) (s : String) : String :=
  match f s with
  | .value v => v
  | _ => ""

theorem msiFetchAll_ok (f : String → MsiFetch) (l : List String)
    (h : ∀ s ∈ l, (f s).isBadJson = false) :
    msiFetchAll f l = .ok (l.map (msiValue f)) := by
  induction l with
  | nil => rfl
  | cons a l ih =>
    have ha := h a (by simp)
    have ihl := ih (fun s hs => h s (by simp [hs]))
    cases hfa : f a with
    | value v => simp [msiFetchAll, hfa, ihl, msiValue, Except.map]
    | requestExn m => simp [msiFetchAll, hfa, ihl, msiValue, Except.map]
    | badJson m => rw [hfa] at ha; simp [MsiFetch.isBadJson] at ha

theorem spFetchAll_ok (f : String → SpFetch) (l : List String)
    (h : ∀ s ∈ l, (f s).isClientRequestErr = false) :
    spFetchAll f l = .ok (l.map (spValue f)) := by
  induction l with
  | nil => rfl
  | cons a l ih =>
    have ha := h a (by simp)
    have ihl := ih (fun s hs => h s (by simp [hs]))
    cases hfa : f a with
    | value v => simp [spFetchAll, hfa, ihl, spValue, Except.map]
    | keyVaultErr m => simp [spFetchAll, hfa, ihl, spValue, Except.map]
    | clientRequestErr m => rw [hfa] at ha; simp [SpFetch.isClientRequestErr] at ha

theorem spFetchAll_err (f : String → SpFetch) (l : List String)
    (h : ∃ s ∈ l, (f s).isClientRequestErr = true) :
    spFetchAll f l = .error "Error occurred in request" := by
  induction l with
  | nil => simp at h
  | cons a l ih =>
    cases hfa : f a with
    | clientRequestErr m => simp [spFetchAll, hfa]
    | value v =>
      have hl : ∃ s ∈ l, (f s).isClientRequestErr = true := by
        rcases h with ⟨s, hs, hcs⟩
        rcases List.mem_cons.mp hs with rfl | hsl
        · rw [hfa] at hcs; simp [SpFetch.isClientRequestErr] at hcs
        · exact ⟨s, hsl, hcs⟩
      simp [spFetchAll, hfa, ih hl, Except.map]
    | keyVaultErr m =>
      have hl : ∃ s ∈ l, (f s).isClientRequestErr = true := by
        rcases h with ⟨s, hs, hcs⟩
        rcases List.mem_cons.mp hs with rfl | hsl
        · rw [hfa] at hcs; simp [SpFetch.isClientRequestErr] at hcs
        · exact ⟨s, hsl, hcs⟩
      simp [spFetchAll, hfa, ih hl, Except.map]

/-- C10: the key-vault lookup returns one element per requested name of the
first term batch, in request order — the fetched value, or the empty string
when that name's fetch fails with the per-name caught error (so a failed
per-name lookup is indistinguishable from an empty-string secret) — while
in the service-principal path invalid credentials, or a request-level
`ClientRequestError` on any name, abort the whole lookup with an error
rather than returning a partial list. -/
theorem lookup_run_per_name_results (t : KeyVaultTransport)
    (terms0 : List String) (rest : List (List String)) :
    (t.tokenAcquired = true →
      (∀ s ∈ terms0, (t.msiFetch s).isBadJson = false) →
      lookup_run t (terms0 :: rest) = .ok (terms0.map (msiValue t.msiFetch))) ∧
    (t.tokenAcquired = false → t.credsOk = false →
      lookup_run t (terms0 :: rest) = .error "Invalid credentials provided.") ∧
    (t.tokenAcquired = false → t.credsOk = true →
      (∀ s ∈ terms0, (t.spFetch s).isClientRequestErr = false) →
      lookup_run t (terms0 :: rest) = .ok (terms0.map (spValue t.spFetch))) ∧
    (t.tokenAcquired = false → t.credsOk = true →
      (∃ s ∈ terms0, (t.spFetch s).isClientRequestErr = true) →
      lookup_run t (terms0 :: rest) = .error "Error occurred in request") := by
  refine ⟨fun ht h => ?_, fun ht hc => ?_, fun ht hc h => ?_, fun ht hc h => ?_⟩
  · simp [lookup_run, ht, msiFetchAll_ok t.msiFetch terms0 h]
  · simp [lookup_run, ht, hc]
  · simp [lookup_run, ht, hc, spFetchAll_ok t.spFetch terms0 h]
  · simp [lookup_run, ht, hc, spFetchAll_err t.spFetch terms0 h]

/-- C10 witness: concrete transports exercising all four branches. -/
theorem lookup_run_per_name_results_witness :
    lookup_run
      { tokenAcquired := true
        msiFetch := fun s => if s = "a" then .value "va" else .requestExn "boom"
        credsOk := true
        spFetch := fun _ => .value "x" } [["a", "b"]] = .ok ["va", ""] ∧
    lookup_run
      { tokenAcquired := false
        msiFetch := fun _ => .value "x"
        credsOk := false
        spFetch := fun _ => .value "x" } [["a"]] =
      .error "Invalid credentials provided." ∧
    lookup_run
      { tokenAcquired := false
        msiFetch := fun _ => .value "x"
        credsOk := true
        spFetch := fun s => if s = "a" then .value "va" else .keyVaultErr "nf" }
      [["a", "b"]] = .ok ["va", ""] ∧
    lookup_run
      { tokenAcquired := false
        msiFetch := fun _ => .value "x"
        credsOk := true
        spFetch := fun s => if s = "b" then .clientRequestErr "net" else .value "v" }
      [["a", "b"]] = .error "Error occurred in request" := by
  refine ⟨?_, ?_, ?_, ?_⟩
  · exact (lookup_run_per_name_results _ ["a", "b"] []).1 rfl (by decide)
  · exact (lookup_run_per_name_results _ ["a"] []).2.1 rfl rfl
  · exact (lookup_run_per_name_results _ ["a", "b"] []).2.2.1 rfl rfl (by decide)
  · exact (lookup_run_per_name_results _ ["a", "b"] []).2.2.2 rfl rfl (by decide)

theorem delete_auto_scale_ok_of {o : DeleteOutcome} {u : Unit}
    (h : delete_auto_scale o = .ok u) : o = .ok := by
  cases o with
  | ok => rfl
  | cloudError s m => simp [delete_auto_scale] at h
  | exn m => simp [delete_auto_scale] at h

theorem delete_servers_ok_of {o : DeleteOutcome} {u : Unit}
    (h : delete_servers o = .ok u) : o = .ok := by
  cases o with
  | ok => rfl
  | cloudError s m => simp [delete_servers] at h
  | exn m => simp [delete_servers] at h

theorem create_or_update_auto_scale_ok_of
    {o : Except String AutoscaleSettingResource} {r : AutoscaleSettingResource}
    (h : create_or_update_auto_scale o = .ok r) : o = .ok r := by
  cases o with
  | ok r2 => simpa [create_or_update_auto_scale] using h
  | error m => simp [create_or_update_auto_scale] at h

theorem create_update_servers_ok_of
    {o : Except String ServerDict} {d : ServerDict}
    (h : create_update_servers o = .ok d) : o = .ok d := by
  cases o with
  | ok d2 => simpa [create_update_servers] using h
  | error m => simp [create_update_servers] at h

/-- When the create path of `azure_rm_autoscale` (check mode off) returns a
result, that result has `changed=true`, exactly one create call was issued,
and the transport reported success for it. -/
theorem autoScaleCreatePath_ok_shape (t : AutoScaleTransport) (loc : String)
    (tg : Option (List (String × String))) (ps : List DesiredProfile)
    (ns : Option (List DesiredNotification)) (en : Option Bool)
    (rn : String) (tgt : Option String) (res : AutoScaleResult)
    (ws : List Write)
    (h : autoScaleCreatePath t false loc tg ps ns en rn tgt = (.ok res, ws)) :
    res.changed = true ∧ ws = [Write.create] ∧
      ∃ r, t.createOutcome = .ok r := by
  unfold autoScaleCreatePath at h
  split at h
  · simp at h
  · simp only [Bool.false_eq_true, if_false] at h
    split at h
    · simp at h
    · rename_i r heq
      have hc := create_or_update_auto_scale_ok_of heq
      simp only [Prod.mk.injEq, Except.ok.injEq] at h
      obtain ⟨h1, h2⟩ := h
      subst h1; subst h2
      exact ⟨rfl, rfl, ⟨r, hc⟩⟩

/-- C6: in both reconcile modules, outside dry-run mode, a result with
`changed=true` is reported exactly when a write call was issued, every
write call recorded in a successful run was reported successful by the
transport (a failed write aborts the run with an error instead of
returning a result), and a run that issues no write reports
`changed=false`. -/
theorem changed_true_only_with_successful_write
    (a1 : AutoScaleArgs) (t1 : AutoScaleTransport)
    (a2 : ServersArgs) (t2 : ServersTransport)
    (h1 : a1.check_mode = false) (h2 : a2.check_mode = false) :
    (∀ res ws, autoScaleExec a1 t1 = (.ok res, ws) →
      ((res.changed = true ↔ ws ≠ []) ∧
       (Write.delete ∈ ws → t1.deleteOutcome = .ok) ∧
       (Write.create ∈ ws → ∃ r, t1.createOutcome = .ok r))) ∧
    (∀ res ws, serversExec a2 t2 = (.ok res, ws) →
      ((res.changed = true ↔ ws ≠ []) ∧
       (Write.delete ∈ ws → t2.deleteOutcome = .ok) ∧
       (Write.create ∈ ws → ∃ d, t2.createOutcome = .ok d))) := by
  constructor
  · intro res ws hexec
    unfold autoScaleExec at hexec
    rw [h1] at hexec
    simp only [] at hexec
    split at hexec
    · simp at hexec
    · split at hexec
      · split at hexec
        · simp only [Bool.false_eq_true, if_false] at hexec
          split at hexec
          · simp at hexec
          · rename_i u heq
            have hdel := delete_auto_scale_ok_of heq
            simp only [Prod.mk.injEq, Except.ok.injEq] at hexec
            obtain ⟨hr, hw⟩ := hexec
            subst hr; subst hw
            refine ⟨by simp, fun _ => hdel, fun hmem => ?_⟩
            simp at hmem
        · split at hexec
          · split at hexec
            · obtain ⟨hc, hw, hcr⟩ :=
                autoScaleCreatePath_ok_shape _ _ _ _ _ _ _ _ _ _ hexec
              subst hw
              refine ⟨by simp [hc], fun hmem => ?_, fun _ => hcr⟩
              simp at hmem
            · simp only [Prod.mk.injEq, Except.ok.injEq] at hexec
              obtain ⟨hr, hw⟩ := hexec
              subst hr; subst hw
              refine ⟨by simp, fun hmem => ?_, fun hmem => ?_⟩ <;>
                simp at hmem
          · simp only [Prod.mk.injEq, Except.ok.injEq] at hexec
            obtain ⟨hr, hw⟩ := hexec
            subst hr; subst hw
            refine ⟨by simp, fun hmem => ?_, fun hmem => ?_⟩ <;>
              simp at hmem
      · split at hexec
        · obtain ⟨hc, hw, hcr⟩ :=
            autoScaleCreatePath_ok_shape _ _ _ _ _ _ _ _ _ _ hexec
          subst hw
          refine ⟨by simp [hc], fun hmem => ?_, fun _ => hcr⟩
          simp at hmem
        · simp only [Prod.mk.injEq, Except.ok.injEq] at hexec
          obtain ⟨hr, hw⟩ := hexec
          subst hr; subst hw
          refine ⟨by simp, fun hmem => ?_, fun hmem => ?_⟩ <;> simp at hmem
  · intro res ws hexec
    unfold serversExec at hexec
    rw [h2] at hexec
    split at hexec
    · simp at hexec
    · split at hexec
      · simp at hexec
      · split at hexec
        · split at hexec
          · split at hexec
            · simp at hexec
            · rename_i u heq
              have hdel := delete_servers_ok_of heq
              simp only [Prod.mk.injEq, Except.ok.injEq] at hexec
              obtain ⟨hr, hw⟩ := hexec
              subst hr; subst hw
              refine ⟨by simp, fun _ => hdel, fun hmem => ?_⟩
              simp at hmem
          · split at hexec
            · simp only [Bool.false_eq_true, if_false] at hexec
              split at hexec
              · simp at hexec
              · rename_i u heq
                have hdel := delete_servers_ok_of heq
                split at hexec
                · simp at hexec
                · rename_i d heq2
                  have hcr := create_update_servers_ok_of heq2
                  simp only [Prod.mk.injEq, Except.ok.injEq] at hexec
                  obtain ⟨hr, hw⟩ := hexec
                  subst hr; subst hw
                  refine ⟨by simp, fun _ => hdel, fun _ => ⟨d, hcr⟩⟩
            · simp only [Prod.mk.injEq, Except.ok.injEq] at hexec
              obtain ⟨hr, hw⟩ := hexec
              subst hr; subst hw
              refine ⟨by simp, fun hmem => ?_, fun hmem => ?_⟩ <;>
                simp at hmem
        · split at hexec
          · simp only [Prod.mk.injEq, Except.ok.injEq] at hexec
            obtain ⟨hr, hw⟩ := hexec
            subst hr; subst hw
            refine ⟨by simp, fun hmem => ?_, fun hmem => ?_⟩ <;>
              simp at hmem
          · split at hexec
            · simp only [Bool.false_eq_true, if_false] at hexec
              split at hexec
              · simp at hexec
              · rename_i d heq2
                have hcr := create_update_servers_ok_of heq2
                simp only [Prod.mk.injEq, Except.ok.injEq] at hexec
                obtain ⟨hr, hw⟩ := hexec
                subst hr; subst hw
                refine ⟨by simp, fun hmem => ?_, fun _ => ⟨d, hcr⟩⟩
                simp at hmem
            · simp only [Prod.mk.injEq, Except.ok.injEq] at hexec
              obtain ⟨hr, hw⟩ := hexec
              subst hr; subst hw
              refine ⟨by simp, fun hmem => ?_, fun hmem => ?_⟩ <;>
                simp at hmem

/-- C6 witness: the no-write drift-free autoscale run and the
delete-and-recreate servers run at concrete inputs. -/
theorem changed_true_only_with_successful_write_witness :
    ((({ result := auto_scale_to_dict (some exRemote), changed := false } :
          AutoScaleResult).changed = true ↔ ([] : List Write) ≠ []) ∧
     (Write.delete ∈ ([] : List Write) →
        exTransportFound.deleteOutcome = .ok) ∧
     (Write.create ∈ ([] : List Write) →
        ∃ r, exTransportFound.createOutcome = .ok r)) ∧
    ((({ changed := true, state := some exServerDict } :
          ServersResult).changed = true ↔
        ([Write.delete, Write.create] : List Write) ≠ []) ∧
     (Write.delete ∈ [Write.delete, Write.create] →
        exServersTransportFound.deleteOutcome = .ok) ∧
     (Write.create ∈ [Write.delete, Write.create] →
        ∃ d, exServersTransportFound.createOutcome = .ok d)) := by
  refine ⟨(changed_true_only_with_successful_write exArgsPresent
      exTransportFound exServersArgsPresent exServersTransportFound
      rfl rfl).1 _ _ rfl,
    (changed_true_only_with_successful_write exArgsPresent
      exTransportFound exServersArgsPresent exServersTransportFound
      rfl rfl).2 _ _ rfl⟩

end AnsibleAzure
